import Mathlib

/-!
Verification of the HooknSock webhook-to-websocket relay (`server.py`).

The development shallowly embeds the core of `server.py`: the token
registry (`TOKEN_CONFIG`), the sliding-window rate limiter
(`check_rate_limit`), the per-channel message queues (`message_queues`),
the `/webhook` publish handler, and the two websocket subscribe handlers
(`/ws/{channel}` and the legacy `/ws`).

Python dicts are modelled as association lists (lookup by first matching
key; the embedding never builds duplicate keys), `time.time()` readings
as integers, and a message body as an abstract value of type `α`
(`request.json()` succeeding is `some data`, failing is `none`).
-/

namespace HooknSock

/-- The value of one `TOKEN_CONFIG` entry: the channel the token is bound to
and the allowed origin domain (`"*"` meaning no origin restriction). -/
structure TokenInfo where
  channel : String
  domain : String
  deriving Repr, DecidableEq

/-- The token registry `TOKEN_CONFIG`: a dict from token string to its
`TokenInfo`, modelled as an association list. -/
abbrev TokenConfig := List (String × TokenInfo)

/-- Dict membership/lookup `token in TOKEN_CONFIG` / `TOKEN_CONFIG[token]`.
The `x-auth-token` header (and the websocket `token` query parameter) may be
absent, i.e. Python `None`, which is never a key of the registry. -/
def lookupToken (cfg : TokenConfig) (token : Option String) : Option TokenInfo :=
  match token, cfg with
  | none, _ => none
  | some _, [] => none
  | some t, p :: rest => if p.1 = t then some p.2 else lookupToken rest (some t)

/-- `rate_limit_storage`, a `defaultdict(list)` from token to the list of
recorded request timestamps. -/
abbrev RateStorage := List (String × List Int)

/-- Reading `rate_limit_storage[token]`: a missing key defaults to `[]`. -/
def getRate (s : RateStorage) (t : String) : List Int :=
  match s with
  | [] => []
  | p :: rest => if p.1 = t then p.2 else getRate rest t

/-- Writing `rate_limit_storage[token] = l`: replace the entry if the key is
present, otherwise add it. -/
def setRate (s : RateStorage) (t : String) (l : List Int) : RateStorage :=
  match s with
  | [] => [(t, l)]
  | p :: rest => if p.1 = t then (t, l) :: rest else p :: setRate rest t l

/-- `check_rate_limit(token)` from `server.py`: prune the timestamps that are
at least `window` old (write the pruned list back even when rejecting), reject
when the pruned list already holds `limit` entries, otherwise record `now` and
admit. Returns the verdict together with the updated storage. -/
def check_rate_limit (window : Int) (limit : Nat) (storage : RateStorage)
    (token : String) (now : Int) : Bool × RateStorage :=
  let pruned := (getRate storage token).filter (fun ts => now - ts < window)
  let storage1 := setRate storage token pruned
  if limit ≤ pruned.length then
    (false, storage1)
  else
    (true, setRate storage1 token (pruned ++ [now]))

/-- The per-channel message queues `message_queues`: a dict from channel name
to the queued messages (head of the list = front of the `asyncio.Queue`). -/
abbrev Queues (α : Type) := List (String × List α)

/-- Dict lookup `message_queues[channel]`; `none` is a missing key. -/
def getQueue {α : Type} (qs : Queues α) (c : String) : Option (List α) :=
  match qs with
  | [] => none
  | p :: rest => if p.1 = c then some p.2 else getQueue rest c

/-- Dict assignment `message_queues[channel] = q`: replace the entry if the
key is present, otherwise add it. -/
def setQueue {α : Type} (qs : Queues α) (c : String) (q : List α) : Queues α :=
  match qs with
  | [] => [(c, q)]
  | p :: rest => if p.1 = c then (c, q) :: rest else p :: setQueue rest c q

/-- The startup loop building `message_queues`: one empty queue per channel
appearing in the token configuration (`for config in TOKEN_CONFIG.values(): if
channel not in message_queues: message_queues[channel] = asyncio.Queue()`). -/
def build_message_queues {α : Type} (cfg : TokenConfig) : Queues α :=
  cfg.foldl
    (fun qs p =>
      if (getQueue qs p.2.channel).isSome then qs
      else qs ++ [(p.2.channel, ([] : List α))])
    []

/-- The whole mutable server state: the rate-limit table and the channel
queues. -/
structure ServerState (α : Type) where
  rate : RateStorage
  queues : Queues α
  deriving DecidableEq

/-- The configuration consumed by the handlers: the token registry and the
`RATE_LIMIT_REQUESTS`, `RATE_LIMIT_WINDOW` and `MAX_PAYLOAD_SIZE` settings. -/
structure Env where
  config : TokenConfig
  rateLimitRequests : Nat
  rateLimitWindow : Int
  maxPayloadSize : Int
  deriving DecidableEq

/-- An inbound publish request: the `x-auth-token` header (absent = `None`),
the declared `content-length` (absent or empty header = `none`), and the
outcome of `request.json()` (`none` = the body does not parse). -/
structure Request (α : Type) where
  token : Option String
  contentLength : Option Int
  body : Option α
  deriving DecidableEq

/-- A structured HTTP response: status code and JSON-object body as a list of
key/value string pairs. -/
structure Response where
  statusCode : Nat
  body : List (String × String)
  deriving Repr, DecidableEq

/-- `401 {"error": "Unauthorized"}`. -/
def unauthorizedResponse : Response := ⟨401, [("error", "Unauthorized")]⟩

/-- `429 {"error": "Rate limit exceeded"}`. -/
def rateLimitedResponse : Response := ⟨429, [("error", "Rate limit exceeded")]⟩

/-- `413 {"error": "Payload too large"}`. -/
def payloadTooLargeResponse : Response := ⟨413, [("error", "Payload too large")]⟩

/-- `400 {"error": "Invalid JSON"}`. -/
def invalidJSONResponse : Response := ⟨400, [("error", "Invalid JSON")]⟩

/-- `200 {"status": "queued", "channel": channel}`. -/
def queuedResponse (channel : String) : Response :=
  ⟨200, [("status", "queued"), ("channel", channel)]⟩

/-- The tail of the `/webhook` handler after the auth, rate-limit and size
checks: parse the body (`Invalid JSON` on failure) and enqueue on the resolved
channel. The result `none` models the `KeyError` that
`message_queues[channel]` would raise when the channel has no queue. -/
def webhookBody {α : Type} (st : ServerState α) (channel : String)
    (req : Request α) : Option (Response × ServerState α) :=
  match req.body with
  | none => some (invalidJSONResponse, st)
  | some data =>
    match getQueue st.queues channel with
    | none => none
    | some q =>
      some (queuedResponse channel,
        { st with queues := setQueue st.queues channel (q ++ [data]) })

/-- The `/webhook` handler: token check, rate limit, declared payload size,
body parse, enqueue — in that order, short-circuiting. -/
def webhook {α : Type} (env : Env) (st : ServerState α) (req : Request α)
    (now : Int) : Option (Response × ServerState α) :=
  match req.token with
  | none => some (unauthorizedResponse, st)
  | some tok =>
    match lookupToken env.config (some tok) with
    | none => some (unauthorizedResponse, st)
    | some info =>
      let rl := check_rate_limit env.rateLimitWindow env.rateLimitRequests
        st.rate tok now
      if rl.1 then
        let st1 : ServerState α := { st with rate := rl.2 }
        match req.contentLength with
        | some n =>
          if n > env.maxPayloadSize then some (payloadTooLargeResponse, st1)
          else webhookBody st1 info.channel req
        | none => webhookBody st1 info.channel req
      else
        some (rateLimitedResponse, { st with rate := rl.2 })

/-- Outcome of a websocket handshake: a close with a code (all closes in
`server.py` use `WS_1008_POLICY_VIOLATION = 1008`) or attachment of the
delivery loop to a channel. -/
inductive WsOutcome where
  /-- Close issued by the origin-validation prologue, before `accept`. -/
  | closedOrigin (code : Nat)
  /-- Close after `accept`: unknown token or token/channel mismatch. -/
  | closedAuth (code : Nat)
  /-- Close after `accept`: the channel has no queue in `message_queues`. -/
  | closedNoQueue (code : Nat)
  /-- The handler enters the delivery loop bound to this channel. -/
  | attached (channel : String)
  deriving Repr, DecidableEq

/-- `websocket.headers.get("origin", "unknown")`. -/
def originHeader (h : Option String) : String := h.getD "unknown"

/-- Python `str.startswith`: the pattern is a character-by-character prefix
of the string. -/
def pyStartsWith (s pat : String) : Bool :=
  pat.data.isPrefixOf s.data

/-- The generator in the origin check: some configured token has a domain
restriction whose domain prefixes the origin under `https://` or `http://`. -/
def originMatchesSomeDomain (cfg : TokenConfig) (origin : String) : Bool :=
  cfg.any (fun p =>
    p.2.domain != "*" &&
      (pyStartsWith origin ("https://" ++ p.2.domain) ||
        pyStartsWith origin ("http://" ++ p.2.domain)))

/-- `has_domain_restrictions`: some configured token has a domain other
than `"*"`. -/
def has_domain_restrictions (cfg : TokenConfig) : Bool :=
  cfg.any (fun p => p.2.domain != "*")

/-- The origin-validation prologue shared by both websocket endpoints:
`if origin and not any(...)` and then `if has_domain_restrictions`, close.
The connection is rejected iff the origin string is non-empty (truthy), it
matches no restricted domain, and some token restricts origins. -/
def originRejected (cfg : TokenConfig) (origin : String) : Bool :=
  origin != "" && !originMatchesSomeDomain cfg origin &&
    has_domain_restrictions cfg

/-- The `/ws/{channel}` handler `ws_channel_endpoint`: origin validation, then
token validation against the addressed channel, then existence of the
channel's queue, then the delivery loop. -/
def ws_channel_endpoint {α : Type} (cfg : TokenConfig) (qs : Queues α)
    (channel : String) (token : Option String) (originHdr : Option String) :
    WsOutcome :=
  let origin := originHeader originHdr
  if originRejected cfg origin then .closedOrigin 1008
  else
    match lookupToken cfg token with
    | none => .closedAuth 1008
    | some info =>
      if info.channel != channel then .closedAuth 1008
      else if (getQueue qs channel).isNone then .closedNoQueue 1008
      else .attached channel

/-- The legacy `/ws` handler `ws_endpoint`: origin validation, then token
validation, then the delivery loop on the token's own channel. -/
def ws_endpoint (cfg : TokenConfig) (token : Option String)
    (originHdr : Option String) : WsOutcome :=
  let origin := originHeader originHdr
  if originRejected cfg origin then .closedOrigin 1008
  else
    match lookupToken cfg token with
    | none => .closedAuth 1008
    | some info => .attached info.channel

/-- The close code carried by a handshake outcome (`none` when attached). -/
def closeCode : WsOutcome → Option Nat
  | .closedOrigin c => some c
  | .closedAuth c => some c
  | .closedNoQueue c => some c
  | .attached _ => none

/-- `asyncio.Queue.get()` on one queue: remove and return the head;
`none` models suspension on an empty queue. -/
def dequeue {α : Type} (q : List α) : Option (α × List α) :=
  match q with
  | [] => none
  | x :: rest => some (x, rest)

/-- A delivery loop's `message_queues[channel].get()`: dequeue the head of
that channel's queue, returning the message and the updated queue dict. -/
def dequeueChannel {α : Type} (qs : Queues α) (c : String) :
    Option (α × Queues α) :=
  match getQueue qs c with
  | none => none
  | some q => (dequeue q).map (fun p => (p.1, setQueue qs c p.2))

/-- The value a delivery loop forwards on its `n`-th dequeue (counted from 0)
from a queue that currently holds `q`, when no publish interleaves. -/
def nthDequeued {α : Type} (q : List α) : Nat → Option α
  | 0 => (dequeue q).map Prod.fst
  | n + 1 =>
    match dequeue q with
    | none => none
    | some p => nthDequeued p.2 n

/-! ### Concrete fixtures

Small concrete configurations and states, used to evaluate the verified
properties on explicit inputs. -/

/-- Two unrestricted tokens bound to channels `"default"` and `"voxo"`. -/
def cfgW : TokenConfig :=
  [("t-default", ⟨"default", "*"⟩), ("t-voxo", ⟨"voxo", "*"⟩)]

/-- Environment over `cfgW`: limit 100 per 60-second window, 1 MiB cap. -/
def envW : Env := ⟨cfgW, 100, 60, 1048576⟩

/-- Startup state over `cfgW`: empty rate table, freshly built queues. -/
def stW : ServerState Nat := ⟨[], build_message_queues cfgW⟩

/-- One token restricted to origin domain `"example.com"`. -/
def cfgO : TokenConfig := [("tok", ⟨"default", "example.com"⟩)]

/-- A rate table in which token `"tok"` has 100 recorded timestamps, all at
time 0. -/
def rateFixture : RateStorage := [("tok", List.replicate 100 (0 : Int))]

/-- Environment for the rate-limit scenario: one token, limit 100 per
60-second window. -/
def envR : Env := ⟨[("tok", ⟨"default", "*"⟩)], 100, 60, 1048576⟩

/-- State for the rate-limit scenario: `rateFixture` and one empty queue. -/
def stR : ServerState Nat := ⟨rateFixture, [("default", [])]⟩

/-- A well-formed publish request from token `"tok"` with no declared
content length. -/
def reqR : Request Nat := ⟨some "tok", none, some 7⟩

/-- First fixture publish: token `"t-voxo"`, body 1. -/
def reqA2 : Request Nat := ⟨some "t-voxo", none, some 1⟩

/-- Second fixture publish: token `"t-voxo"`, body 2. -/
def reqB2 : Request Nat := ⟨some "t-voxo", none, some 2⟩

/-- The state after publishing `reqA2` at time 0 from `stW`. -/
def st1W : ServerState Nat :=
  ⟨[("t-voxo", [0])], [("default", []), ("voxo", [1])]⟩

/-- The state after additionally publishing `reqB2` at time 0. -/
def st2W : ServerState Nat :=
  ⟨[("t-voxo", [0, 0])], [("default", []), ("voxo", [1, 2])]⟩

/-! ### Association-list helper lemmas -/

theorem getQueue_setQueue_self {α : Type} (qs : Queues α) (c : String)
    (q : List α) : getQueue (setQueue qs c q) c = some q := by
  induction qs with
  | nil => simp [getQueue, setQueue]
  | cons p rest ih =>
    by_cases hp : p.1 = c
    · simp [getQueue, setQueue, hp]
    · simp [getQueue, setQueue, hp, ih]

theorem getQueue_setQueue_ne {α : Type} (qs : Queues α) (c c' : String)
    (q : List α) (h : c' ≠ c) :
    getQueue (setQueue qs c q) c' = getQueue qs c' := by
  have hcc : ¬c = c' := fun hc => h hc.symm
  induction qs with
  | nil => simp [getQueue, setQueue, hcc]
  | cons p rest ih =>
    by_cases hp : p.1 = c
    · simp [getQueue, setQueue, hp, hcc]
    · simp only [setQueue, hp, if_false, getQueue]
      by_cases hp' : p.1 = c'
      · simp [hp']
      · simp [hp', ih]

theorem getQueue_isSome_setQueue {α : Type} (qs : Queues α) (c c' : String)
    (q : List α) (hc : (getQueue qs c).isSome) :
    (getQueue (setQueue qs c q) c').isSome = (getQueue qs c').isSome := by
  by_cases h : c' = c
  · subst h
    rw [getQueue_setQueue_self]
    simpa using hc.symm
  · rw [getQueue_setQueue_ne qs c c' q h]

theorem getRate_setRate_self (s : RateStorage) (t : String) (l : List Int) :
    getRate (setRate s t l) t = l := by
  induction s with
  | nil => simp [getRate, setRate]
  | cons p rest ih =>
    by_cases hp : p.1 = t
    · simp [getRate, setRate, hp]
    · simp [getRate, setRate, hp, ih]

theorem getRate_setRate_ne (s : RateStorage) (t t' : String) (l : List Int)
    (h : t' ≠ t) : getRate (setRate s t l) t' = getRate s t' := by
  have htt : ¬t = t' := fun ht => h ht.symm
  induction s with
  | nil => simp [getRate, setRate, htt]
  | cons p rest ih =>
    by_cases hp : p.1 = t
    · simp [getRate, setRate, hp, htt]
    · simp only [setRate, hp, if_false, getRate]
      by_cases hp' : p.1 = t'
      · simp [hp']
      · simp [hp', ih]

theorem getQueue_append_single {α : Type} (acc : Queues α) (d : String)
    (q : List α) (c : String) :
    getQueue (acc ++ [(d, q)]) c =
      (getQueue acc c).orElse (fun _ => if d = c then some q else none) := by
  induction acc with
  | nil => simp [getQueue]
  | cons p rest ih =>
    by_cases hp : p.1 = c
    · simp [getQueue, hp]
    · simp [getQueue, hp, ih]

theorem getQueue_foldl_build {α : Type} (cfg : TokenConfig) (acc : Queues α)
    (c : String) :
    (getQueue
        (cfg.foldl
          (fun qs p =>
            if (getQueue qs p.2.channel).isSome then qs
            else qs ++ [(p.2.channel, ([] : List α))])
          acc)
        c).isSome =
      ((getQueue acc c).isSome || cfg.any (fun p => p.2.channel == c)) := by
  induction cfg generalizing acc with
  | nil => simp
  | cons p rest ih =>
    simp only [List.foldl_cons, List.any_cons]
    rw [ih]
    by_cases hacc : (getQueue acc p.2.channel).isSome
    · rw [if_pos hacc]
      by_cases hc : p.2.channel = c
      · rw [← hc]
        simp [hacc]
      · have hcb : (p.2.channel == c) = false := by
          simpa using hc
        rw [hcb, Bool.false_or]
    · rw [if_neg hacc, getQueue_append_single]
      cases hq : getQueue acc c with
      | none =>
        by_cases hc : p.2.channel = c
        · simp [Option.orElse, hc]
        · simp [Option.orElse, hc]
      | some v => simp [Option.orElse]

/-- The set of channels that have a queue after startup is exactly the set of
channels appearing in the token configuration. -/
theorem getQueue_build_message_queues {α : Type} (cfg : TokenConfig)
    (c : String) :
    (getQueue (build_message_queues (α := α) cfg) c).isSome =
      cfg.any (fun p => p.2.channel == c) := by
  unfold build_message_queues
  rw [getQueue_foldl_build]
  simp [getQueue]

/-- `check_rate_limit` admits iff the pruned timestamp list is strictly below
the limit. -/
theorem check_rate_limit_fst (window : Int) (limit : Nat)
    (storage : RateStorage) (token : String) (now : Int) :
    (check_rate_limit window limit storage token now).1 =
      decide
        (((getRate storage token).filter
            (fun ts => now - ts < window)).length < limit) := by
  unfold check_rate_limit
  by_cases h :
      limit ≤
        ((getRate storage token).filter (fun ts => now - ts < window)).length
  · simp [h, Nat.not_lt.mpr h]
  · simp [h, not_le.mp h]

/-- After `check_rate_limit`, the token's stored window is the pruned list,
with `now` appended exactly when the request was admitted. -/
theorem check_rate_limit_getRate (window : Int) (limit : Nat)
    (storage : RateStorage) (token : String) (now : Int) :
    getRate (check_rate_limit window limit storage token now).2 token =
      (let pruned :=
        (getRate storage token).filter (fun ts => now - ts < window)
       if (check_rate_limit window limit storage token now).1 then
         pruned ++ [now]
       else pruned) := by
  unfold check_rate_limit
  by_cases h :
      limit ≤
        ((getRate storage token).filter (fun ts => now - ts < window)).length
  · simp [h, getRate_setRate_self]
  · simp [h, getRate_setRate_self]

/-- `check_rate_limit` touches no other token's window. -/
theorem check_rate_limit_getRate_ne (window : Int) (limit : Nat)
    (storage : RateStorage) (token : String) (now : Int) (t' : String)
    (h : t' ≠ token) :
    getRate (check_rate_limit window limit storage token now).2 t' =
      getRate storage t' := by
  unfold check_rate_limit
  by_cases hl :
      limit ≤
        ((getRate storage token).filter (fun ts => now - ts < window)).length
  · simp [hl, getRate_setRate_ne _ _ _ _ h]
  · simp [hl, getRate_setRate_ne _ _ _ _ h]

/-- Repeated dequeuing walks the queue front to back: the `n`-th dequeue
returns the `n`-th element. -/
theorem nthDequeued_eq_get {α : Type} (q : List α) (n : Nat) :
    nthDequeued q n = q.get? n := by
  induction q generalizing n with
  | nil => cases n <;> simp [nthDequeued, dequeue]
  | cons x rest ih => cases n <;> simp [nthDequeued, dequeue, ih]

/-! ### Branch lemmas for the `/webhook` handler -/

theorem webhook_unauthorized {α : Type} (env : Env) (st : ServerState α)
    (req : Request α) (now : Int)
    (h : lookupToken env.config req.token = none) :
    webhook env st req now = some (unauthorizedResponse, st) := by
  cases htok : req.token with
  | none => simp [webhook, htok]
  | some tok =>
    rw [htok] at h
    simp [webhook, htok, h]

theorem webhook_rate_limited {α : Type} (env : Env) (st : ServerState α)
    (req : Request α) (now : Int) (tok : String) (info : TokenInfo)
    (htok : req.token = some tok)
    (hinfo : lookupToken env.config (some tok) = some info)
    (hrl : (check_rate_limit env.rateLimitWindow env.rateLimitRequests
        st.rate tok now).1 = false) :
    webhook env st req now = some (rateLimitedResponse,
      { st with rate := (check_rate_limit env.rateLimitWindow
          env.rateLimitRequests st.rate tok now).2 }) := by
  simp [webhook, htok, hinfo, hrl]

theorem webhook_too_large {α : Type} (env : Env) (st : ServerState α)
    (req : Request α) (now : Int) (tok : String) (info : TokenInfo)
    (n : Int) (htok : req.token = some tok)
    (hinfo : lookupToken env.config (some tok) = some info)
    (hrl : (check_rate_limit env.rateLimitWindow env.rateLimitRequests
        st.rate tok now).1 = true)
    (hlen : req.contentLength = some n) (hn : n > env.maxPayloadSize) :
    webhook env st req now = some (payloadTooLargeResponse,
      { st with rate := (check_rate_limit env.rateLimitWindow
          env.rateLimitRequests st.rate tok now).2 }) := by
  simp [webhook, htok, hinfo, hrl, hlen, hn]

theorem webhook_reaches_body {α : Type} (env : Env) (st : ServerState α)
    (req : Request α) (now : Int) (tok : String) (info : TokenInfo)
    (htok : req.token = some tok)
    (hinfo : lookupToken env.config (some tok) = some info)
    (hrl : (check_rate_limit env.rateLimitWindow env.rateLimitRequests
        st.rate tok now).1 = true)
    (hlen : req.contentLength = none ∨
      ∃ n, req.contentLength = some n ∧ ¬n > env.maxPayloadSize) :
    webhook env st req now =
      webhookBody
        { st with rate := (check_rate_limit env.rateLimitWindow
            env.rateLimitRequests st.rate tok now).2 }
        info.channel req := by
  rcases hlen with h | ⟨n, hsome, hn⟩
  · simp [webhook, htok, hinfo, hrl, h]
  · simp [webhook, htok, hinfo, hrl, hsome, hn]

theorem webhookBody_invalid {α : Type} (st : ServerState α) (ch : String)
    (req : Request α) (h : req.body = none) :
    webhookBody st ch req = some (invalidJSONResponse, st) := by
  simp [webhookBody, h]

theorem webhookBody_success {α : Type} (st : ServerState α) (ch : String)
    (req : Request α) (data : α) (q : List α) (hd : req.body = some data)
    (hq : getQueue st.queues ch = some q) :
    webhookBody st ch req = some (queuedResponse ch,
      { st with queues := setQueue st.queues ch (q ++ [data]) }) := by
  simp [webhookBody, hd, hq]

theorem webhookBody_crash {α : Type} (st : ServerState α) (ch : String)
    (req : Request α) (data : α) (hd : req.body = some data)
    (hq : getQueue st.queues ch = none) :
    webhookBody st ch req = none := by
  simp [webhookBody, hd, hq]

/-- Complete case analysis of one `/webhook` call: exactly one of the five
pipeline outcomes (or the unreachable missing-queue crash) happens, in the
order token check, rate limit, declared size, parse, enqueue. -/
theorem webhook_cases {α : Type} (env : Env) (st : ServerState α)
    (req : Request α) (now : Int) :
    (lookupToken env.config req.token = none ∧
        webhook env st req now = some (unauthorizedResponse, st)) ∨
      ∃ tok info,
        req.token = some tok ∧
          lookupToken env.config req.token = some info ∧
          (((check_rate_limit env.rateLimitWindow env.rateLimitRequests
                  st.rate tok now).1 = false ∧
              webhook env st req now = some (rateLimitedResponse,
                { st with rate := (check_rate_limit env.rateLimitWindow
                    env.rateLimitRequests st.rate tok now).2 })) ∨
            ((check_rate_limit env.rateLimitWindow env.rateLimitRequests
                  st.rate tok now).1 = true ∧
              (((∃ n, req.contentLength = some n ∧ n > env.maxPayloadSize) ∧
                  webhook env st req now = some (payloadTooLargeResponse,
                    { st with rate := (check_rate_limit env.rateLimitWindow
                        env.rateLimitRequests st.rate tok now).2 })) ∨
                ((req.contentLength = none ∨
                    ∃ n, req.contentLength = some n ∧
                      ¬n > env.maxPayloadSize) ∧
                  ((req.body = none ∧
                      webhook env st req now = some (invalidJSONResponse,
                        { st with rate := (check_rate_limit
                            env.rateLimitWindow env.rateLimitRequests
                            st.rate tok now).2 })) ∨
                    (∃ data, req.body = some data ∧
                      ((getQueue st.queues info.channel = none ∧
                          webhook env st req now = none) ∨
                        (∃ q, getQueue st.queues info.channel = some q ∧
                          webhook env st req now =
                            some (queuedResponse info.channel,
                              { rate := (check_rate_limit
                                  env.rateLimitWindow env.rateLimitRequests
                                  st.rate tok now).2,
                                queues := setQueue st.queues info.channel
                                  (q ++ [data]) }))))))))) := by
  cases hlook : lookupToken env.config req.token with
  | none => exact Or.inl ⟨rfl, webhook_unauthorized env st req now hlook⟩
  | some info =>
    have htok : ∃ tok, req.token = some tok := by
      cases htok : req.token with
      | none => rw [htok] at hlook; simp [lookupToken] at hlook
      | some t => exact ⟨t, rfl⟩
    obtain ⟨tok, htok⟩ := htok
    rw [htok] at hlook
    right
    refine ⟨tok, info, htok, rfl, ?_⟩
    cases hrl : (check_rate_limit env.rateLimitWindow env.rateLimitRequests
        st.rate tok now).1 with
    | false =>
      exact Or.inl ⟨rfl,
        webhook_rate_limited env st req now tok info htok hlook hrl⟩
    | true =>
      right
      refine ⟨rfl, ?_⟩
      by_cases hsize :
          ∃ n, req.contentLength = some n ∧ n > env.maxPayloadSize
      · obtain ⟨n, hn1, hn2⟩ := hsize
        exact Or.inl ⟨⟨n, hn1, hn2⟩,
          webhook_too_large env st req now tok info n htok hlook hrl hn1 hn2⟩
      · right
        have hsizeok : req.contentLength = none ∨
            ∃ n, req.contentLength = some n ∧ ¬n > env.maxPayloadSize := by
          cases hcl : req.contentLength with
          | none => exact Or.inl rfl
          | some n => exact Or.inr ⟨n, rfl, fun hgt => hsize ⟨n, hcl, hgt⟩⟩
        have hwb := webhook_reaches_body env st req now tok info htok hlook
          hrl hsizeok
        refine ⟨hsizeok, ?_⟩
        cases hb : req.body with
        | none =>
          exact Or.inl ⟨rfl, by rw [hwb]; exact webhookBody_invalid _ _ _ hb⟩
        | some data =>
          right
          refine ⟨data, rfl, ?_⟩
          cases hq : getQueue st.queues info.channel with
          | none =>
            exact Or.inl ⟨rfl,
              by rw [hwb]; exact webhookBody_crash _ _ _ data hb hq⟩
          | some q =>
            exact Or.inr ⟨q, rfl,
              by rw [hwb]; exact webhookBody_success _ _ _ data q hb hq⟩

/-! ### Claim theorems -/

/-- C4: the rate-limit check prunes every timestamp older than the window,
admits iff the remaining count is strictly below the limit, and records the
current timestamp only on admission; with limit 100 per 60-second window, the
101st publish within the window draws the rate-limited response, and a publish
after the window has elapsed succeeds again. -/
theorem C4_rate_limit_window (window : Int) (limit : Nat)
    (storage : RateStorage) (token : String) (now : Int) :
    ((check_rate_limit window limit storage token now).1 = true ↔
        ((getRate storage token).filter
            (fun ts => now - ts < window)).length < limit) ∧
    ((check_rate_limit window limit storage token now).1 = true →
        getRate (check_rate_limit window limit storage token now).2 token =
          (getRate storage token).filter (fun ts => now - ts < window) ++
            [now]) ∧
    ((check_rate_limit window limit storage token now).1 = false →
        getRate (check_rate_limit window limit storage token now).2 token =
          (getRate storage token).filter (fun ts => now - ts < window)) ∧
    (check_rate_limit 60 100 rateFixture "tok" 30).1 = false ∧
    (check_rate_limit 60 100 rateFixture "tok" 61).1 = true ∧
    (webhook envR stR reqR 30).map Prod.fst = some rateLimitedResponse ∧
    (webhook envR stR reqR 61).map Prod.fst = some (queuedResponse "default")
    := by
  refine ⟨?_, ?_, ?_, by decide, by decide, by decide, by decide⟩
  · rw [check_rate_limit_fst]
    exact decide_eq_true_iff
  · intro h
    rw [check_rate_limit_getRate, h]
    simp
  · intro h
    rw [check_rate_limit_getRate, h]
    simp

/-- Witness for C4 at the concrete rate-limit fixture. -/
theorem C4_rate_limit_window_witness :
    getRate (check_rate_limit 60 100 rateFixture "tok" 61).2 "tok" =
      (getRate rateFixture "tok").filter (fun ts => (61 : Int) - ts < 60) ++
        [61] :=
  (C4_rate_limit_window 60 100 rateFixture "tok" 61).2.1 (by decide)

/-- C5: a publish with an unknown (or absent) token is answered with the
Unauthorized response and the server state is returned untouched: no channel
queue and no rate-window entry changes. -/
theorem C5_unknown_token_unchanged {α : Type} (env : Env)
    (st : ServerState α) (req : Request α) (now : Int)
    (h : lookupToken env.config req.token = none) :
    webhook env st req now = some (unauthorizedResponse, st) ∧
    ∀ r st', webhook env st req now = some (r, st') →
      (∀ c, getQueue st'.queues c = getQueue st.queues c) ∧
      (∀ t, getRate st'.rate t = getRate st.rate t) := by
  have hw := webhook_unauthorized env st req now h
  refine ⟨hw, ?_⟩
  intro r st' h2
  rw [hw] at h2
  have hp := Option.some.inj h2
  have hst : st = st' := congrArg Prod.snd hp
  subst hst
  exact ⟨fun c => rfl, fun t => rfl⟩

/-- Witness for C5: a concrete unknown token against the fixture state. -/
theorem C5_unknown_token_unchanged_witness :
    webhook envW stW (⟨some "nope", none, some 1⟩ : Request Nat) 0 =
      some (unauthorizedResponse, stW) :=
  (C5_unknown_token_unchanged envW stW
    (⟨some "nope", none, some 1⟩ : Request Nat) 0 (by decide)).1

/-- C1: the ingress checks run in the fixed short-circuiting order — token
lookup, rate limit, declared payload size, body parse, enqueue — each failure
yields its own structured response, the four error responses are pairwise
distinct and distinct from every success response, and a fully successful
publish is acknowledged with the queued response naming the channel the token
maps to. -/
theorem C1_ingress_pipeline {α : Type} (env : Env) (st : ServerState α)
    (req : Request α) (now : Int) :
    (unauthorizedResponse ≠ rateLimitedResponse ∧
      unauthorizedResponse ≠ payloadTooLargeResponse ∧
      unauthorizedResponse ≠ invalidJSONResponse ∧
      rateLimitedResponse ≠ payloadTooLargeResponse ∧
      rateLimitedResponse ≠ invalidJSONResponse ∧
      payloadTooLargeResponse ≠ invalidJSONResponse ∧
      ∀ c, queuedResponse c ≠ unauthorizedResponse ∧
        queuedResponse c ≠ rateLimitedResponse ∧
        queuedResponse c ≠ payloadTooLargeResponse ∧
        queuedResponse c ≠ invalidJSONResponse) ∧
    (lookupToken env.config req.token = none →
      webhook env st req now = some (unauthorizedResponse, st)) ∧
    ∀ tok info, req.token = some tok →
      lookupToken env.config (some tok) = some info →
      (((check_rate_limit env.rateLimitWindow env.rateLimitRequests st.rate
            tok now).1 = false →
          webhook env st req now = some (rateLimitedResponse,
            { st with rate := (check_rate_limit env.rateLimitWindow
                env.rateLimitRequests st.rate tok now).2 })) ∧
        ((check_rate_limit env.rateLimitWindow env.rateLimitRequests st.rate
            tok now).1 = true →
          (∀ n, req.contentLength = some n → n > env.maxPayloadSize →
            webhook env st req now = some (payloadTooLargeResponse,
              { st with rate := (check_rate_limit env.rateLimitWindow
                  env.rateLimitRequests st.rate tok now).2 })) ∧
          ((req.contentLength = none ∨
              ∃ n, req.contentLength = some n ∧ ¬n > env.maxPayloadSize) →
            (req.body = none →
              webhook env st req now = some (invalidJSONResponse,
                { st with rate := (check_rate_limit env.rateLimitWindow
                    env.rateLimitRequests st.rate tok now).2 })) ∧
            (∀ data q, req.body = some data →
              getQueue st.queues info.channel = some q →
              webhook env st req now = some (queuedResponse info.channel,
                { rate := (check_rate_limit env.rateLimitWindow
                    env.rateLimitRequests st.rate tok now).2,
                  queues := setQueue st.queues info.channel
                    (q ++ [data]) }))))) := by
  refine ⟨⟨by decide, by decide, by decide, by decide, by decide, by decide,
    ?_⟩, webhook_unauthorized env st req now, ?_⟩
  · intro c
    refine ⟨?_, ?_, ?_, ?_⟩ <;>
      simp [queuedResponse, unauthorizedResponse, rateLimitedResponse,
        payloadTooLargeResponse, invalidJSONResponse]
  · intro tok info htok hinfo
    refine ⟨webhook_rate_limited env st req now tok info htok hinfo, ?_⟩
    intro hrl
    refine ⟨fun n hn1 hn2 =>
      webhook_too_large env st req now tok info n htok hinfo hrl hn1 hn2, ?_⟩
    intro hsize
    have hwb := webhook_reaches_body env st req now tok info htok hinfo hrl
      hsize
    constructor
    · intro hb
      rw [hwb]
      exact webhookBody_invalid _ _ _ hb
    · intro data q hb hq
      rw [hwb]
      exact webhookBody_success _ _ _ data q hb hq

/-- Witness for C1: a concrete successful publish through the whole
pipeline. -/
theorem C1_ingress_pipeline_witness :
    webhook envW stW (⟨some "t-voxo", some 100, some 42⟩ : Request Nat) 5 =
      some (queuedResponse "voxo",
        { rate := (check_rate_limit envW.rateLimitWindow
            envW.rateLimitRequests stW.rate "t-voxo" 5).2,
          queues := setQueue stW.queues "voxo" ([] ++ [42]) }) := by
  have h := C1_ingress_pipeline envW stW
    (⟨some "t-voxo", some 100, some 42⟩ : Request Nat) 5
  exact ((((h.2.2 "t-voxo" ⟨"voxo", "*"⟩ rfl (by decide)).2
    (by decide)).2 (Or.inr ⟨100, rfl, by decide⟩)).2) 42 [] rfl (by decide)

/-- The post-size-check tail of the handler never produces the too-large
response. -/
theorem webhookBody_ne_tooLarge {α : Type} (st : ServerState α) (ch : String)
    (req : Request α) (st' : ServerState α) :
    webhookBody st ch req ≠ some (payloadTooLargeResponse, st') := by
  cases hb : req.body with
  | none =>
    simp [webhookBody, hb, invalidJSONResponse, payloadTooLargeResponse]
  | some data =>
    cases hq : getQueue st.queues ch with
    | none => simp [webhookBody, hb, hq]
    | some q =>
      simp [webhookBody, hb, hq, queuedResponse, payloadTooLargeResponse]

/-- On admission, the token's stored rate window afterwards is the pruned list
with the current timestamp appended. -/
theorem check_rate_limit_getRate_true (window : Int) (limit : Nat)
    (storage : RateStorage) (token : String) (now : Int)
    (h : (check_rate_limit window limit storage token now).1 = true) :
    getRate (check_rate_limit window limit storage token now).2 token =
      (getRate storage token).filter (fun ts => now - ts < window) ++
        [now] := by
  rw [check_rate_limit_getRate, h]
  simp

/-- C10: the payload-size check fires only on a declared content length: with
no content-length header the handler proceeds straight to body parsing
regardless of actual body size, a declared size exactly equal to the
configured maximum passes, and the too-large response occurs exactly when the
declared size strictly exceeds the maximum. -/
theorem C10_size_check_declared_only {α : Type} (env : Env)
    (st : ServerState α) (req : Request α) (now : Int) (tok : String)
    (info : TokenInfo) (htok : req.token = some tok)
    (hinfo : lookupToken env.config (some tok) = some info)
    (hrl : (check_rate_limit env.rateLimitWindow env.rateLimitRequests
        st.rate tok now).1 = true) :
    (req.contentLength = none →
      webhook env st req now =
        webhookBody
          { st with rate := (check_rate_limit env.rateLimitWindow
              env.rateLimitRequests st.rate tok now).2 }
          info.channel req) ∧
    (req.contentLength = some env.maxPayloadSize →
      webhook env st req now =
        webhookBody
          { st with rate := (check_rate_limit env.rateLimitWindow
              env.rateLimitRequests st.rate tok now).2 }
          info.channel req) ∧
    (∀ n, req.contentLength = some n →
      ((∃ st', webhook env st req now =
          some (payloadTooLargeResponse, st')) ↔
        n > env.maxPayloadSize)) := by
  refine ⟨?_, ?_, ?_⟩
  · intro hcl
    exact webhook_reaches_body env st req now tok info htok hinfo hrl
      (Or.inl hcl)
  · intro hcl
    exact webhook_reaches_body env st req now tok info htok hinfo hrl
      (Or.inr ⟨env.maxPayloadSize, hcl, lt_irrefl _⟩)
  · intro n hn
    constructor
    · rintro ⟨st', hst'⟩
      by_contra hgt
      have hw := webhook_reaches_body env st req now tok info htok hinfo hrl
        (Or.inr ⟨n, hn, hgt⟩)
      rw [hw] at hst'
      exact webhookBody_ne_tooLarge _ _ _ _ hst'
    · intro hgt
      exact ⟨_, webhook_too_large env st req now tok info n htok hinfo hrl
        hn hgt⟩

/-- Witness for C10: a concrete oversized declaration is rejected. -/
theorem C10_size_check_declared_only_witness :
    ∃ st', webhook envW stW
        (⟨some "t-default", some 2000000, some 3⟩ : Request Nat) 0 =
      some (payloadTooLargeResponse, st') :=
  ((C10_size_check_declared_only envW stW
      (⟨some "t-default", some 2000000, some 3⟩ : Request Nat) 0 "t-default"
      ⟨"default", "*"⟩ rfl (by decide) (by decide)).2.2 2000000 rfl).mpr
    (by decide)

/-- C9: a publish that passes authentication and is admitted by the rate
limiter keeps its admission timestamp recorded even when it then fails the
size check or body parsing: the rejected request still consumes one
rate-limit slot, and no queue changes. -/
theorem C9_rate_slot_consumed {α : Type} (env : Env) (st : ServerState α)
    (req : Request α) (now : Int) (tok : String) (info : TokenInfo)
    (htok : req.token = some tok)
    (hinfo : lookupToken env.config (some tok) = some info)
    (hrl : (check_rate_limit env.rateLimitWindow env.rateLimitRequests
        st.rate tok now).1 = true)
    (hfail : (∃ n, req.contentLength = some n ∧ n > env.maxPayloadSize) ∨
      req.body = none) :
    ∃ r st', webhook env st req now = some (r, st') ∧
      (r = payloadTooLargeResponse ∨ r = invalidJSONResponse) ∧
      getRate st'.rate tok =
        (getRate st.rate tok).filter
            (fun ts => now - ts < env.rateLimitWindow) ++ [now] ∧
      st'.queues = st.queues := by
  have hrate := check_rate_limit_getRate_true env.rateLimitWindow
    env.rateLimitRequests st.rate tok now hrl
  rcases hfail with ⟨n, hn1, hn2⟩ | hb
  · exact ⟨payloadTooLargeResponse, _,
      webhook_too_large env st req now tok info n htok hinfo hrl hn1 hn2,
      Or.inl rfl, hrate, rfl⟩
  · by_cases hsz : ∃ n, req.contentLength = some n ∧ n > env.maxPayloadSize
    · obtain ⟨n, hn1, hn2⟩ := hsz
      exact ⟨payloadTooLargeResponse, _,
        webhook_too_large env st req now tok info n htok hinfo hrl hn1 hn2,
        Or.inl rfl, hrate, rfl⟩
    · have hsizeok : req.contentLength = none ∨
          ∃ n, req.contentLength = some n ∧ ¬n > env.maxPayloadSize := by
        cases hcl : req.contentLength with
        | none => exact Or.inl rfl
        | some n => exact Or.inr ⟨n, rfl, fun hgt => hsz ⟨n, hcl, hgt⟩⟩
      have hw := webhook_reaches_body env st req now tok info htok hinfo hrl
        hsizeok
      exact ⟨invalidJSONResponse,
        { st with rate := (check_rate_limit env.rateLimitWindow
            env.rateLimitRequests st.rate tok now).2 },
        by rw [hw]; exact webhookBody_invalid _ _ _ hb,
        Or.inr rfl, hrate, rfl⟩

/-- Witness for C9: a malformed body still burns a rate slot. -/
theorem C9_rate_slot_consumed_witness :
    ∃ r st', webhook envW stW
        (⟨some "t-default", none, none⟩ : Request Nat) 7 = some (r, st') ∧
      (r = payloadTooLargeResponse ∨ r = invalidJSONResponse) ∧
      getRate st'.rate "t-default" =
        (getRate stW.rate "t-default").filter
            (fun ts => (7 : Int) - ts < envW.rateLimitWindow) ++ [7] ∧
      st'.queues = stW.queues :=
  C9_rate_slot_consumed envW stW (⟨some "t-default", none, none⟩ : Request Nat)
    7 "t-default" ⟨"default", "*"⟩ rfl (by decide) (by decide) (Or.inr rfl)

/-- Inversion of a successful publish: a queued acknowledgement for channel
`c` means the body parsed to some message that was appended to the tail of
`c`'s queue, with every other queue left unchanged. -/
theorem webhook_queued_inv {α : Type} (env : Env) (st : ServerState α)
    (req : Request α) (now : Int) (c : String) (st' : ServerState α)
    (h : webhook env st req now = some (queuedResponse c, st')) :
    ∃ data q, req.body = some data ∧ getQueue st.queues c = some q ∧
      getQueue st'.queues c = some (q ++ [data]) ∧
      (∀ c', c' ≠ c → getQueue st'.queues c' = getQueue st.queues c') := by
  rcases webhook_cases env st req now with ⟨hl, hw⟩ |
    ⟨tok, info, htok, hinfo, hcase⟩
  · rw [hw] at h
    have hr := congrArg Prod.fst (Option.some.inj h)
    simp [unauthorizedResponse, queuedResponse] at hr
  · rcases hcase with ⟨hrl, hw⟩ | ⟨hrl, hrest⟩
    · rw [hw] at h
      have hr := congrArg Prod.fst (Option.some.inj h)
      simp [rateLimitedResponse, queuedResponse] at hr
    · rcases hrest with ⟨hn, hw⟩ | ⟨hsz, hrest⟩
      · rw [hw] at h
        have hr := congrArg Prod.fst (Option.some.inj h)
        simp [payloadTooLargeResponse, queuedResponse] at hr
      · rcases hrest with ⟨hb, hw⟩ | ⟨data, hb, hrest⟩
        · rw [hw] at h
          have hr := congrArg Prod.fst (Option.some.inj h)
          simp [invalidJSONResponse, queuedResponse] at hr
        · rcases hrest with ⟨hq, hw⟩ | ⟨q, hq, hw⟩
          · rw [hw] at h
            exact absurd h (by simp)
          · rw [hw] at h
            have hp := Option.some.inj h
            rw [Prod.mk.injEq] at hp
            obtain ⟨hr, hsnd⟩ := hp
            have hch : info.channel = c := by
              simpa [queuedResponse] using hr
            subst hch
            refine ⟨data, q, hb, hq, ?_, ?_⟩
            · rw [← hsnd]
              exact getQueue_setQueue_self st.queues info.channel (q ++ [data])
            · intro c' hc'
              rw [← hsnd]
              exact getQueue_setQueue_ne st.queues info.channel c' (q ++ [data])
                hc'

/-- A publish under a token bound to a channel leaves every other channel's
queue untouched, whatever the outcome. -/
theorem webhook_preserves_other_queues {α : Type} (env : Env)
    (st : ServerState α) (req : Request α) (now : Int) (tok : String)
    (info : TokenInfo) (r : Response) (st' : ServerState α)
    (htok : req.token = some tok)
    (hinfo : lookupToken env.config (some tok) = some info)
    (h : webhook env st req now = some (r, st')) (c' : String)
    (hc' : c' ≠ info.channel) :
    getQueue st'.queues c' = getQueue st.queues c' := by
  rcases webhook_cases env st req now with ⟨hl, hw⟩ |
    ⟨tok2, info2, htok2, hinfo2, hcase⟩
  · rw [htok, hinfo] at hl
    exact absurd hl (by simp)
  · rw [htok] at htok2
    have htk : tok2 = tok := (Option.some.inj htok2).symm
    subst htk
    rw [htok, hinfo] at hinfo2
    have hif : info2 = info := (Option.some.inj hinfo2).symm
    subst hif
    rcases hcase with ⟨hrl, hw⟩ | ⟨hrl, hrest⟩
    · rw [hw] at h
      have hp := Option.some.inj h
      rw [Prod.mk.injEq] at hp
      rw [← hp.2]
    · rcases hrest with ⟨hn, hw⟩ | ⟨hsz, hrest⟩
      · rw [hw] at h
        have hp := Option.some.inj h
        rw [Prod.mk.injEq] at hp
        rw [← hp.2]
      · rcases hrest with ⟨hb, hw⟩ | ⟨data, hb, hrest⟩
        · rw [hw] at h
          have hp := Option.some.inj h
          rw [Prod.mk.injEq] at hp
          rw [← hp.2]
        · rcases hrest with ⟨hq, hw⟩ | ⟨q, hq, hw⟩
          · rw [hw] at h
            exact absurd h (by simp)
          · rw [hw] at h
            have hp := Option.some.inj h
            rw [Prod.mk.injEq] at hp
            rw [← hp.2]
            exact getQueue_setQueue_ne st.queues _ c' (q ++ [data]) hc'

/-- C2: two successful publishes to the same channel land at the queue tail
in publish order, so a subscriber draining the queue afterwards receives the
first message strictly before the second. -/
theorem C2_fifo_order {α : Type} (env : Env) (st st1 st2 : ServerState α)
    (reqA reqB : Request α) (nowA nowB : Int) (A B : α) (c : String)
    (q : List α) (hq : getQueue st.queues c = some q)
    (hA : reqA.body = some A) (hB : reqB.body = some B)
    (h1 : webhook env st reqA nowA = some (queuedResponse c, st1))
    (h2 : webhook env st1 reqB nowB = some (queuedResponse c, st2)) :
    getQueue st2.queues c = some (q ++ [A, B]) ∧
    nthDequeued (q ++ [A, B]) q.length = some A ∧
    nthDequeued (q ++ [A, B]) (q.length + 1) = some B ∧
    q.length < q.length + 1 := by
  obtain ⟨dA, qA, hbA, hqA, hA1, _⟩ := webhook_queued_inv env st reqA nowA c
    st1 h1
  obtain ⟨dB, qB, hbB, hqB, hB1, _⟩ := webhook_queued_inv env st1 reqB nowB c
    st2 h2
  have hdA : dA = A := Option.some.inj (hbA.symm.trans hA)
  have hdB : dB = B := Option.some.inj (hbB.symm.trans hB)
  have hqAq : qA = q := Option.some.inj (hqA.symm.trans hq)
  have hqBq : qB = q ++ [A] := by
    have := Option.some.inj (hqB.symm.trans hA1)
    rw [this, hqAq, hdA]
  subst hdA hdB hqAq
  rw [hqBq] at hB1
  refine ⟨?_, ?_, ?_, Nat.lt_succ_self _⟩
  · rw [hB1]
    simp
  · rw [nthDequeued_eq_get, List.get?_append_right (le_refl _)]
    simp
  · rw [nthDequeued_eq_get,
      List.get?_append_right (Nat.le_succ_of_le (le_refl _))]
    simp

/-- Witness for C2 at a concrete pair of publishes on channel "voxo". -/
theorem C2_fifo_order_witness :
    getQueue st2W.queues "voxo" = some ([] ++ [1, 2]) ∧
    nthDequeued ([] ++ [1, 2]) (List.length ([] : List Nat)) = some 1 ∧
    nthDequeued ([] ++ [1, 2]) (List.length ([] : List Nat) + 1) = some 2 ∧
    List.length ([] : List Nat) < List.length ([] : List Nat) + 1 :=
  C2_fifo_order envW stW st1W st2W reqA2 reqB2 0 0 1 2 "voxo" []
    (by decide) rfl rfl (by decide) (by decide)

/-- C3: a message published under a token is enqueued only on the token's own
channel: every other channel's queue is unchanged by the publish, and a
message absent from another channel's queue is never returned by any dequeue
there. -/
theorem C3_channel_isolation {α : Type} (env : Env) (st : ServerState α)
    (req : Request α) (now : Int) (tok : String) (info : TokenInfo)
    (r : Response) (st' : ServerState α) (Y : String)
    (htok : req.token = some tok)
    (hinfo : lookupToken env.config (some tok) = some info)
    (hrun : webhook env st req now = some (r, st'))
    (hY : Y ≠ info.channel) :
    getQueue st'.queues Y = getQueue st.queues Y ∧
    ∀ A qY, getQueue st'.queues Y = some qY → A ∉ qY →
      ∀ n, nthDequeued qY n ≠ some A := by
  refine ⟨webhook_preserves_other_queues env st req now tok info r st' htok
    hinfo hrun Y hY, ?_⟩
  intro A qY _ hnotin n hsome
  rw [nthDequeued_eq_get] at hsome
  exact hnotin (List.get?_mem hsome)

/-- Witness for C3: a publish to "voxo" leaves the "default" queue as it was,
and a message never put there is never dequeued from it. -/
theorem C3_channel_isolation_witness :
    getQueue st1W.queues "default" = getQueue stW.queues "default" ∧
    nthDequeued ([] : List Nat) 0 ≠ some 1 := by
  have h := C3_channel_isolation envW stW reqA2 0 "t-voxo" ⟨"voxo", "*"⟩
    (queuedResponse "voxo") st1W "default" rfl (by decide) (by decide)
    (by decide)
  exact ⟨h.1, h.2 1 [] (by decide) (by decide) 0⟩

/-- C6 counterexample: with a token restricted to domain "example.com", a
connection declaring the empty-string origin matches neither scheme prefix of
the allowed domain, yet it is not rejected by the origin check — the empty
string is falsy, so the whole origin validation is skipped and the connection
attaches. -/
theorem C6_empty_origin_counterexample :
    originMatchesSomeDomain cfgO "" = false ∧
    has_domain_restrictions cfgO = true ∧
    ws_channel_endpoint cfgO (build_message_queues (α := Nat) cfgO) "default"
      (some "tok") (some "") = WsOutcome.attached "default" := by
  refine ⟨by decide, by decide, by decide⟩

/-- C6 (amended): when some configured token restricts origin domain, a
non-empty declared origin that matches neither the `https://` nor the
`http://` prefix of any allowed domain is rejected with the policy-violation
close before any token processing, an origin matching an allowed domain
passes the origin check, and an empty declared origin bypasses the origin
check entirely; in particular, with a token restricted to "example.com",
origin "https://evil.com" is rejected and "https://example.com" passes. -/
theorem C6_origin_check_amended {α : Type} (cfg : TokenConfig)
    (qs : Queues α) (channel : String) (token : Option String)
    (origin : String) (hres : has_domain_restrictions cfg = true) :
    (origin ≠ "" → originMatchesSomeDomain cfg origin = false →
      ws_channel_endpoint cfg qs channel token (some origin) =
        WsOutcome.closedOrigin 1008 ∧
      ws_endpoint cfg token (some origin) = WsOutcome.closedOrigin 1008) ∧
    (originMatchesSomeDomain cfg origin = true →
      ws_channel_endpoint cfg qs channel token (some origin) ≠
        WsOutcome.closedOrigin 1008 ∧
      ws_endpoint cfg token (some origin) ≠ WsOutcome.closedOrigin 1008) ∧
    ws_channel_endpoint cfgO (build_message_queues (α := Nat) cfgO) "default"
      (some "tok") (some "https://evil.com") = WsOutcome.closedOrigin 1008 ∧
    ws_channel_endpoint cfgO (build_message_queues (α := Nat) cfgO) "default"
      (some "tok") (some "https://example.com") =
      WsOutcome.attached "default" := by
  refine ⟨?_, ?_, by decide, by decide⟩
  · intro hne hmatch
    have hrej : originRejected cfg origin = true := by
      simp [originRejected, hmatch, hres, hne]
    constructor
    · simp [ws_channel_endpoint, originHeader, hrej]
    · simp [ws_endpoint, originHeader, hrej]
  · intro hmatch
    have hrej : originRejected cfg origin = false := by
      simp [originRejected, hmatch]
    constructor
    · cases hlk : lookupToken cfg token with
      | none => simp [ws_channel_endpoint, originHeader, hrej, hlk]
      | some info =>
        simp only [ws_channel_endpoint, originHeader, Option.getD_some,
          hrej, Bool.false_eq_true, if_false, hlk]
        split
        · simp
        · split <;> simp
    · cases hlk : lookupToken cfg token with
      | none => simp [ws_endpoint, originHeader, hrej, hlk]
      | some info => simp [ws_endpoint, originHeader, hrej, hlk]

/-- Witness for the amended C6 at the "example.com" fixture. -/
theorem C6_origin_check_amended_witness :
    ws_channel_endpoint cfgO (build_message_queues (α := Nat) cfgO) "default"
      (some "tok") (some "https://evil.com") = WsOutcome.closedOrigin 1008 ∧
    ws_endpoint cfgO (some "tok") (some "https://evil.com") =
      WsOutcome.closedOrigin 1008 :=
  (C6_origin_check_amended cfgO (build_message_queues cfgO) "default"
    (some "tok") "https://evil.com" (by decide)).1 (by decide) (by decide)

/-- C7: on the explicit-channel endpoint, an unknown token or a token whose
mapped channel differs from the addressed one yields a policy-violation
close (code 1008) and the delivery loop is never attached; on the legacy
endpoint, an unknown token is likewise closed with policy violation, and a
known token that passes the origin check is bound to exactly the channel the
token maps to. -/
theorem C7_subscribe_auth {α : Type} (cfg : TokenConfig) (qs : Queues α)
    (channel : String) (token : Option String) (originHdr : Option String) :
    ((lookupToken cfg token = none ∨
        ∃ info, lookupToken cfg token = some info ∧
          info.channel ≠ channel) →
      (∀ ch, ws_channel_endpoint cfg qs channel token originHdr ≠
          WsOutcome.attached ch) ∧
      closeCode (ws_channel_endpoint cfg qs channel token originHdr) =
        some 1008) ∧
    (lookupToken cfg token = none →
      (∀ ch, ws_endpoint cfg token originHdr ≠ WsOutcome.attached ch) ∧
      closeCode (ws_endpoint cfg token originHdr) = some 1008) ∧
    (∀ info, lookupToken cfg token = some info →
      originRejected cfg (originHeader originHdr) = false →
      ws_endpoint cfg token originHdr = WsOutcome.attached info.channel) := by
  refine ⟨?_, ?_, ?_⟩
  · intro hbad
    cases hor : originRejected cfg (originHeader originHdr) with
    | true =>
      constructor
      · intro ch
        simp [ws_channel_endpoint, hor]
      · simp [ws_channel_endpoint, hor, closeCode]
    | false =>
      rcases hbad with hnone | ⟨info, hsome, hne⟩
      · constructor
        · intro ch
          simp [ws_channel_endpoint, hor, hnone]
        · simp [ws_channel_endpoint, hor, hnone, closeCode]
      · have hbne : (info.channel != channel) = true := by simp [hne]
        constructor
        · intro ch
          simp [ws_channel_endpoint, hor, hsome, hbne]
        · simp [ws_channel_endpoint, hor, hsome, hbne, closeCode]
  · intro hnone
    cases hor : originRejected cfg (originHeader originHdr) with
    | true =>
      constructor
      · intro ch
        simp [ws_endpoint, hor]
      · simp [ws_endpoint, hor, closeCode]
    | false =>
      constructor
      · intro ch
        simp [ws_endpoint, hor, hnone]
      · simp [ws_endpoint, hor, hnone, closeCode]
  · intro info hsome hor
    simp [ws_endpoint, hor, hsome]

/-- Witness for C7: token "t-voxo" addressed to channel "default" is closed
with policy violation. -/
theorem C7_subscribe_auth_witness :
    closeCode (ws_channel_endpoint cfgW (build_message_queues (α := Nat) cfgW)
      "default" (some "t-voxo") none) = some 1008 :=
  ((C7_subscribe_auth cfgW (build_message_queues (α := Nat) cfgW) "default"
      (some "t-voxo") none).1
    (Or.inr ⟨⟨"voxo", "*"⟩, by decide, by decide⟩)).2

/-- A successful registry lookup comes from an entry of the configuration. -/
theorem lookupToken_mem (cfg : TokenConfig) (tok : String) (info : TokenInfo)
    (h : lookupToken cfg (some tok) = some info) : (tok, info) ∈ cfg := by
  induction cfg with
  | nil => simp [lookupToken] at h
  | cons p rest ih =>
    rw [lookupToken] at h
    by_cases hp : p.1 = tok
    · rw [if_pos hp] at h
      have h2 : p.2 = info := Option.some.inj h
      have hpp : p = (tok, info) := by
        cases p
        simp_all
      rw [hpp]
      exact List.mem_cons_self _ _
    · rw [if_neg hp] at h
      exact List.mem_cons_of_mem _ (ih h)

/-- C8: the channel-queue set built at startup is exactly the set of channels
appearing in the token configuration; neither a publish nor a dequeue adds or
removes a channel; every registered token's channel has a queue; hence the
ChannelUnknown failure is unreachable at request time — a publish from an
authenticated token always finds its queue (the handler never raises), and
the explicit-channel endpoint's missing-queue close is never taken once the
token/channel match has passed. -/
theorem C8_channel_set_fixed {α : Type} (cfg : TokenConfig) (env : Env)
    (st : ServerState α) (req : Request α) (now : Int) :
    (∀ c, (getQueue (build_message_queues (α := α) cfg) c).isSome = true ↔
        ∃ p ∈ cfg, p.2.channel = c) ∧
    (∀ tok info, lookupToken cfg (some tok) = some info →
      (getQueue (build_message_queues (α := α) cfg) info.channel).isSome =
        true) ∧
    ((∀ tok info, req.token = some tok →
        lookupToken env.config (some tok) = some info →
        (getQueue st.queues info.channel).isSome = true) →
      (webhook env st req now).isSome = true) ∧
    (∀ r st', webhook env st req now = some (r, st') →
      ∀ c, (getQueue st'.queues c).isSome = (getQueue st.queues c).isSome) ∧
    (∀ (qs : Queues α) c x qs', dequeueChannel qs c = some (x, qs') →
      ∀ c', (getQueue qs' c').isSome = (getQueue qs c').isSome) ∧
    (∀ channel token originHdr info k,
      lookupToken cfg token = some info → info.channel = channel →
      ws_channel_endpoint cfg (build_message_queues (α := α) cfg) channel
        token originHdr ≠ WsOutcome.closedNoQueue k) := by
  refine ⟨?_, ?_, ?_, ?_, ?_, ?_⟩
  · intro c
    rw [getQueue_build_message_queues]
    simp [List.any_eq_true]
  · intro tok info h
    rw [getQueue_build_message_queues, List.any_eq_true]
    exact ⟨(tok, info), lookupToken_mem cfg tok info h, by simp⟩
  · intro hcover
    rcases webhook_cases env st req now with ⟨hl, hw⟩ |
      ⟨tok, info, htok, hinfo, hcase⟩
    · rw [hw]
      rfl
    · have hinfo2 : lookupToken env.config (some tok) = some info := by
        rw [← htok]
        exact hinfo
      have hq := hcover tok info htok hinfo2
      rcases hcase with ⟨_, hw⟩ | ⟨_, hrest⟩
      · rw [hw]
        rfl
      · rcases hrest with ⟨_, hw⟩ | ⟨_, hrest⟩
        · rw [hw]
          rfl
        · rcases hrest with ⟨_, hw⟩ | ⟨data, hb, hrest⟩
          · rw [hw]
            rfl
          · rcases hrest with ⟨hqn, hw⟩ | ⟨q, hqs, hw⟩
            · rw [hqn] at hq
              simp at hq
            · rw [hw]
              rfl
  · intro r st' h c
    rcases webhook_cases env st req now with ⟨hl, hw⟩ |
      ⟨tok, info, htok, hinfo, hcase⟩
    · rw [hw] at h
      have hp := Option.some.inj h
      rw [Prod.mk.injEq] at hp
      rw [← hp.2]
    · rcases hcase with ⟨_, hw⟩ | ⟨_, hrest⟩
      · rw [hw] at h
        have hp := Option.some.inj h
        rw [Prod.mk.injEq] at hp
        rw [← hp.2]
      · rcases hrest with ⟨_, hw⟩ | ⟨_, hrest⟩
        · rw [hw] at h
          have hp := Option.some.inj h
          rw [Prod.mk.injEq] at hp
          rw [← hp.2]
        · rcases hrest with ⟨_, hw⟩ | ⟨data, hb, hrest⟩
          · rw [hw] at h
            have hp := Option.some.inj h
            rw [Prod.mk.injEq] at hp
            rw [← hp.2]
          · rcases hrest with ⟨hqn, hw⟩ | ⟨q, hqs, hw⟩
            · rw [hw] at h
              exact absurd h (by simp)
            · rw [hw] at h
              have hp := Option.some.inj h
              rw [Prod.mk.injEq] at hp
              rw [← hp.2]
              exact getQueue_isSome_setQueue st.queues info.channel c
                (q ++ [data]) (by simp [hqs])
  · intro qs2 c x qs' h c'
    unfold dequeueChannel at h
    cases hq : getQueue qs2 c with
    | none =>
      rw [hq] at h
      simp at h
    | some q =>
      rw [hq] at h
      cases q with
      | nil => simp [dequeue] at h
      | cons y rest =>
        simp only [dequeue, Option.map_some] at h
        have hp := Option.some.inj h
        rw [Prod.mk.injEq] at hp
        rw [← hp.2]
        exact getQueue_isSome_setQueue qs2 c c' rest (by simp [hq])
  · intro channel token originHdr info k hlk hch
    cases hor : originRejected cfg (originHeader originHdr) with
    | true => simp [ws_channel_endpoint, hor]
    | false =>
      obtain ⟨tok2, htok2⟩ : ∃ t, token = some t := by
        cases token with
        | none => simp [lookupToken] at hlk
        | some t => exact ⟨t, rfl⟩
      subst htok2
      have hq : (getQueue (build_message_queues (α := α) cfg)
          channel).isSome = true := by
        rw [getQueue_build_message_queues, List.any_eq_true]
        exact ⟨(tok2, info), lookupToken_mem cfg tok2 info hlk,
          by simp [hch]⟩
      have hbne : (info.channel != channel) = false := by simp [hch]
      have hqn : (getQueue (build_message_queues (α := α) cfg)
          channel).isNone = false := by
        cases hgq : getQueue (build_message_queues (α := α) cfg) channel with
        | none =>
          rw [hgq] at hq
          simp at hq
        | some q => simp
      simp [ws_channel_endpoint, hor, hlk, hbne, hqn]

/-- Witness for C8: token "t-voxo" of the fixture registry has its queue. -/
theorem C8_channel_set_fixed_witness :
    (getQueue (build_message_queues (α := Nat) cfgW) "voxo").isSome = true :=
  (C8_channel_set_fixed cfgW envW stW reqR 0).2.1 "t-voxo" ⟨"voxo", "*"⟩
    (by decide)

end HooknSock
